import Mathlib

/-!
# Verification of the entity-classification and relevance-filtering engine

Shallow embedding of the core of the `dup_ai` service: the constrained
entity classifier (`app/services/base_classifier.py`), the keyword-overlap
search tools (`app/tools/keyword_search_tool.py` and
`app/tools/implementations/_shared/keyword_search_tool.py`), the tool
executor (`app/tools/tool_executor.py`), the pipeline orchestrator
(`app/pipelines/base.py`), and the composition root
(`app/pipelines/__init__.py`).

Datasets (`pandas.DataFrame`) are modelled as ordered lists of rows; each
row carries its stable integer index and an association list of named
string cells.  Relevance scores (Python floats that are always quotients
of small naturals) are modelled as rationals.  External collaborators
(the generation backend, the KeyBERT extractor, the pymorphy lemma
dictionary) are parameters of the embedded functions; fallible calls are
`Except` values, mirroring Python's try/except structure explicitly.
-/

/-- A dataset row: its stable integer identifier (the pandas index) and its
named columns, as an association list from column name to cell text. -/
structure Row where
  idx : Nat
  cells : List (String × String)
deriving DecidableEq, Repr

/-- A dataset (`pandas.DataFrame`): ordered column names and ordered rows. -/
structure DF where
  cols : List String
  rows : List Row
deriving DecidableEq, Repr

/-- `pd.DataFrame()` — the explicitly empty dataset (no columns, no rows). -/
def DF.emptyDF : DF := ⟨[], []⟩

/-- `df.head(n)` — the first `n` rows of the dataset. -/
def DF.head (df : DF) (n : Nat) : DF := ⟨df.cols, df.rows.take n⟩

/-- Reading a cell of a row (`row[column]`); absent cells read as `""`. -/
def rowGet (r : Row) (c : String) : String :=
  match r.cells.find? (fun p => p.1 == c) with
  | some p => p.2
  | none => ""

/-- A relevance score map `{row_id: score}` in row order. -/
abbrev ScoreMap := List (Nat × ℚ)

/-- Whether `nd` begins `hay` (auxiliary for Python's substring test). -/
def leadsWith : List Char → List Char → Bool
  | _, [] => true
  | [], _ :: _ => false
  | a :: hay, b :: nd => a == b && leadsWith hay nd

/-- Python's `nd in hay` on strings: `nd` occurs contiguously in `hay`. -/
def hasSub : List Char → List Char → Bool
  | [], nd => nd.isEmpty
  | a :: t, nd => leadsWith (a :: t) nd || hasSub t nd

/-- Python's `str.lower()` on one character, over the alphabets this service
handles (ASCII and Russian Cyrillic). -/
def lowerChar (c : Char) : Char :=
  if 65 ≤ c.toNat ∧ c.toNat ≤ 90 then Char.ofNat (c.toNat + 32)
  else if 0x410 ≤ c.toNat ∧ c.toNat ≤ 0x42F then Char.ofNat (c.toNat + 0x20)
  else if c.toNat = 0x401 then Char.ofNat 0x451
  else c

/-- Python's `str.lower()`. -/
def pyLower (s : String) : String := String.mk (s.data.map lowerChar)

/-- Python's `str.strip()`: drop whitespace from both ends. -/
def trimChars (l : List Char) : List Char :=
  ((l.dropWhile Char.isWhitespace).reverse.dropWhile Char.isWhitespace).reverse

/-- `calculate_relevance_score` (`app/tools/base_tool.py`): the fraction of
keywords whose lowercased, stripped form occurs in the lowercased text;
`0` when the text is empty or there are no keywords. -/
def calculate_relevance_score (text : String) (keywords : List String) : ℚ :=
  if text = "" ∨ keywords = [] then 0
  else
    let text_lower := text.data.map lowerChar
    let hits := (keywords.filter (fun kw =>
      let k := trimChars (kw.data.map lowerChar)
      (!k.isEmpty) && hasSub text_lower k)).length
    Rat.divInt (hits : Int) (keywords.length : Int)

/-- Descending comparison on scored rows, the order used by
`DataFrame.nlargest(top_n, score_column)` (`keep='first'`, i.e. a stable
descending sort followed by truncation). -/
def scoreGE (p q : Row × ℚ) : Prop := q.2 ≤ p.2

instance : DecidableRel scoreGE := fun p q => inferInstanceAs (Decidable (q.2 ≤ p.2))

instance : IsTotal (Row × ℚ) scoreGE := ⟨fun a b => le_total b.2 a.2⟩

instance : IsTrans (Row × ℚ) scoreGE := ⟨fun _ _ _ h1 h2 => le_trans h2 h1⟩

/-- Scoring a dataset's rows against keywords over one column
(`df[column].apply(lambda text: calculate_relevance_score(text, keywords))`). -/
def scoredRows (df : DF) (column : String) (keywords : List String) : List (Row × ℚ) :=
  df.rows.map (fun r => (r, calculate_relevance_score (rowGet r column) keywords))

/-- The positively scored rows (`df_with_scores[df_with_scores.score > 0]`). -/
def positiveRows (scored : List (Row × ℚ)) : List (Row × ℚ) :=
  scored.filter (fun p => decide (0 < p.2))

/-- `filtered_df.nlargest(top_n, score_column)`: stable descending sort by
score, truncated to `top_n`. -/
def nlargestRows (scored : List (Row × ℚ)) (top_n : Nat) : List (Row × ℚ) :=
  (List.insertionSort scoreGE (positiveRows scored)).take top_n

/-- The success path shared by both keyword tools: keep positive scores,
rank them, and return the surviving rows (the temporary score column of the
Python code is represented by the returned score map). -/
def positivePath (scored : List (Row × ℚ)) (cols : List String) (top_n : Nat) : DF × ScoreMap :=
  let ranked := nlargestRows scored top_n
  (⟨cols, ranked.map (fun p => p.1)⟩, ranked.map (fun p => (p.1.idx, p.2)))

/-- `KeywordSearchTool.execute` (`app/tools/keyword_search_tool.py`, the tool
registered in the registry): filters a dataset by keyword overlap in
`column_to_search`, falling back to the first `top_n` rows of the original
dataset with an empty score map when the dataset or keyword list is empty,
the column is absent, or no row scores above zero. -/
def kst_execute (df : DF) (keywords : List String) (column_to_search : String)
    (top_n : Nat) : DF × ScoreMap :=
  if df.rows = [] ∨ keywords = [] then (df.head top_n, [])
  else if column_to_search ∉ df.cols then (df.head top_n, [])
  else
    let scored := scoredRows df column_to_search keywords
    if positiveRows scored = [] then (df.head top_n, [])
    else positivePath scored df.cols top_n

/-- Characters kept by `re.sub(r'[^а-яА-Яa-zA-Z0-9\s]', ' ', text)`. -/
def keepChar (c : Char) : Bool :=
  ('а' ≤ c && c ≤ 'я') || ('А' ≤ c && c ≤ 'Я') ||
  ('a' ≤ c && c ≤ 'z') || ('A' ≤ c && c ≤ 'Z') ||
  ('0' ≤ c && c ≤ '9') || c.isWhitespace

/-- Python's `str.split()` with no argument: split on whitespace runs,
dropping empty pieces.  The accumulator holds the current word reversed. -/
def splitWords : List Char → List Char → List (List Char)
  | [], acc => if acc.isEmpty then [] else [acc.reverse]
  | c :: t, acc =>
    if c.isWhitespace then
      if acc.isEmpty then splitWords t [] else acc.reverse :: splitWords t []
    else splitWords t (c :: acc)

/-- `_lemmatize_text` (`app/tools/implementations/_shared/keyword_search_tool.py`):
lowercase, replace characters outside `[а-яА-Яa-zA-Z0-9\s]` with spaces,
split on whitespace, and replace each word by its dictionary base form.
The pymorphy dictionary lookup `morph.parse(word)[0].normal_form` is the
external parameter `morphNorm`. -/
def lemmatize_text (morphNorm : String → String) (text : String) : String :=
  let lowered := text.data.map lowerChar
  let replaced := lowered.map (fun c => if keepChar c then c else ' ')
  let words := splitWords replaced []
  String.mk (List.intercalate [' '] (words.map (fun w => (morphNorm (String.mk w)).data)))

/-- Scored rows of the `_shared` lemmatizing tool: the `risk_text` column and
the keywords are both lemmatized before scoring. -/
def sharedScoredRows (morphNorm : String → String) (df : DF) (keywords : List String) :
    List (Row × ℚ) :=
  let lemmatized_keywords := (keywords.filter (fun kw => kw ≠ "")).map (lemmatize_text morphNorm)
  df.rows.map (fun r =>
    (r, calculate_relevance_score (lemmatize_text morphNorm (rowGet r "risk_text"))
      lemmatized_keywords))

/-- `KeywordSearchTool.execute`
(`app/tools/implementations/_shared/keyword_search_tool.py`): the lemmatizing
variant.  Same fallbacks as the registered tool except that an absent
`risk_text` column yields `pd.DataFrame()` — an explicitly empty result. -/
def kst_shared_execute (morphNorm : String → String) (df : DF) (keywords : List String)
    (top_n : Nat) : DF × ScoreMap :=
  if df.rows = [] ∨ keywords = [] then (df.head top_n, [])
  else if "risk_text" ∉ df.cols then (DF.emptyDF, [])
  else
    let scored := sharedScoredRows morphNorm df keywords
    if positiveRows scored = [] then (df.head top_n, [])
    else positivePath scored df.cols top_n

example : calculate_relevance_score "budget overrun" ["budget"] = 1 := by decide
example : calculate_relevance_score "delay in shipment" ["budget"] = 0 := by decide
example : calculate_relevance_score "a b" ["a", "b", "c", "d"] = Rat.divInt 1 2 := by decide
example :
    kst_execute ⟨["risk_text"], [⟨0, [("risk_text", "delay in shipment")]⟩,
      ⟨1, [("risk_text", "budget overrun")]⟩]⟩ ["budget"] "risk_text" 5 =
    (⟨["risk_text"], [⟨1, [("risk_text", "budget overrun")]⟩]⟩, [(1, 1)]) := by decide
example :
    kst_execute ⟨["risk_text"], [⟨0, [("risk_text", "delay in shipment")]⟩,
      ⟨1, [("risk_text", "budget overrun")]⟩]⟩ ["rocket"] "risk_text" 5 =
    (⟨["risk_text"], [⟨0, [("risk_text", "delay in shipment")]⟩,
      ⟨1, [("risk_text", "budget overrun")]⟩]⟩, []) := by decide

/-- `_preprocess_items_with_hashtags` (`app/services/base_classifier.py`):
wrap every vocabulary entry with the `#` delimiter on both sides before
embedding it in the constrained schema. -/
def preprocess_items_with_hashtags (items : List String) : List String :=
  items.map (fun item => "#" ++ item ++ "#")

/-- Python's `s.strip('#')`: drop every leading and trailing `'#'`. -/
def stripHashChars (s : String) : String :=
  String.mk (((s.data.dropWhile (fun c => c == '#')).reverse.dropWhile
    (fun c => c == '#')).reverse)

/-- `_remove_hashtag_separators` (`app/services/base_classifier.py`). -/
def remove_hashtag_separators (item_with_hashtags : String) : String :=
  if item_with_hashtags = "" then item_with_hashtags
  else stripHashChars item_with_hashtags

/-- One entry of the constrained schema's `top_matches`: a delimited
vocabulary item plus its relevance score in `[0, 1]`. -/
structure MatchResult where
  item : String
  score : ℚ
deriving DecidableEq, Repr

/-- The constrained classification response model (`ClassificationResult`
in `_create_dynamic_classification_model`): free-text reasoning plus one to
three scored matches drawn from the delimited vocabulary. -/
structure ClassificationResult where
  reasoning : String
  top_matches : List MatchResult
deriving DecidableEq, Repr

/-- Python's `max(xs, key=f)` starting from accumulator `a`: the current
maximum is replaced only when a strictly greater key appears, so the first
element attaining the maximum wins. -/
def pyMaxBy (f : MatchResult → ℚ) (a : MatchResult) : List MatchResult → MatchResult
  | [] => a
  | b :: t => pyMaxBy f (if f a < f b then b else a) t

/-- `BaseClassifierService.classify` (`app/services/base_classifier.py`).
`items_list` is the loaded vocabulary; the generation backend's
`generate_structured_completion` round-trip is the external `backend`
parameter (`Except.error` models a raised exception, `Except.ok none` a
missing structured response).  Returns `""` on empty vocabulary, backend
failure, missing response, or empty match list; otherwise strips the `#`
delimiters off the highest-scoring match (first wins on ties). -/
def classify (items_list : List String)
    (backend : Except String (Option ClassificationResult)) : String :=
  if items_list = [] then ""
  else
    match backend with
    | .error _ => ""
    | .ok none => ""
    | .ok (some result) =>
      match result.top_matches with
      | [] => ""
      | m :: ms => remove_hashtag_separators (pyMaxBy MatchResult.score m ms).item

/-- The row predicate of `filter_items`:
`df[column].str.lower() == item_value.lower()`. -/
def rowMatches (column_name item_value : String) (r : Row) : Bool :=
  pyLower (rowGet r column_name) == pyLower item_value

/-- `BaseClassifierService.filter_items` (`app/services/base_classifier.py`):
case-insensitive exact match on the designated column.  An empty
`item_value` or an absent column returns the dataset unchanged with an
empty score map; no matching row returns `pd.DataFrame()`; otherwise the
matching rows are returned, each scored `1.0`. -/
def filter_items (column_name : String) (df : DF) (item_value : String) :
    DF × ScoreMap :=
  if item_value = "" then (df, [])
  else if column_name ∉ df.cols then (df, [])
  else
    let filtered := df.rows.filter (rowMatches column_name item_value)
    if filtered = [] then (DF.emptyDF, [])
    else (⟨df.cols, filtered⟩, filtered.map (fun r => (r.idx, 1)))

example : classify [] (Except.ok none) = "" := by decide
example :
    classify ["Alpha", "Beta"]
      (Except.ok (some ⟨"r", [⟨"#Alpha#", Rat.divInt 4 5⟩, ⟨"#Beta#", Rat.divInt 4 5⟩]⟩)) =
    "Alpha" := by decide
example :
    classify ["Alpha", "Beta"]
      (Except.ok (some ⟨"r", [⟨"#Alpha#", Rat.divInt 3 5⟩, ⟨"#Beta#", Rat.divInt 4 5⟩]⟩)) =
    "Beta" := by decide
example : classify ["#a"] (Except.ok (some ⟨"r", [⟨"##a#", 1⟩]⟩)) = "a" := by decide
example :
    filter_items "project_name"
      ⟨["project_name"], [⟨0, [("project_name", "Alpha")]⟩, ⟨1, [("project_name", "Beta")]⟩]⟩
      "alpha" =
    (⟨["project_name"], [⟨0, [("project_name", "Alpha")]⟩]⟩, [(0, 1)]) := by decide
example :
    filter_items "project_name"
      ⟨["project_name"], [⟨0, [("project_name", "Alpha")]⟩]⟩ "Gamma" =
    (DF.emptyDF, []) := by decide

/-- A typed record (`Contractor`/`Risk`/`Error`/`Process` model instance):
the projected row together with its optional relevance score. -/
structure Item where
  row : Row
  relevance_score : Option ℚ
deriving DecidableEq, Repr

/-- The `Answer` model (`app/domain/models/answer.py`). -/
structure Answer where
  text : String
  query : String
  total_found : Nat
  items : List Item
  category : Option String
deriving DecidableEq, Repr

/-- `BasePipeline._create_empty_answer` (`app/pipelines/base.py`). -/
def create_empty_answer (entity_name question : String) (category : Option String) : Answer :=
  { text := "По вашему запросу не найдено " ++ entity_name ++ "."
    query := question
    total_found := 0
    items := []
    category := category }

/-- `BasePipeline._create_error_answer` (`app/pipelines/base.py`). -/
def create_error_answer (entity_name question error_msg : String)
    (category : Option String) : Answer :=
  { text := "К сожалению, произошла ошибка при обработке вашего запроса о "
      ++ entity_name ++ ": " ++ error_msg
    query := question
    total_found := 0
    items := []
    category := category }

/-- `BasePipeline._generate_additional_context` (default implementation). -/
def generate_additional_context (entity_name : String) (filtered : DF)
    (best_item : String) : String :=
  "Найдено " ++ toString filtered.rows.length ++ " " ++ entity_name
    ++ " для '" ++ best_item ++ "'."

/-- The eight stage collaborators of `BasePipeline.process`, each modelled as
an `Except`-valued function (`Except.error` is a raised exception): the Excel
loader, the normalization service, the dataset-kind pre-filter, the
classifier's vocabulary loader, `classify`, `filter_items`, the
row-to-model projection, and the answer generator. -/
structure Stages where
  load : Except String DF
  clean_df : DF → Except String DF
  pre_process : DF → Except String DF
  load_items : DF → Except String (List String)
  classify_q : List String → Except String String
  filter_data : DF → String → Except String (DF × ScoreMap)
  to_models : DF → ScoreMap → Except String (List Item)
  gen_answer : List Item → String → Except String Answer

/-- `BasePipeline.process` (`app/pipelines/base.py`): the eight-stage
orchestration.  Every stage exception is caught at the boundary and turned
into `_create_error_answer`; an empty pre-filtered dataset or an empty
classification result short-circuits to `_create_empty_answer`. -/
def process (entity_name question : String) (category : Option String)
    (s : Stages) : Answer :=
  match s.load with
  | .error e => create_error_answer entity_name question e category
  | .ok df =>
    match s.clean_df df with
    | .error e => create_error_answer entity_name question e category
    | .ok cleaned =>
      match s.pre_process cleaned with
      | .error e => create_error_answer entity_name question e category
      | .ok processed =>
        if processed.rows.length = 0 then create_empty_answer entity_name question category
        else
          match s.load_items processed with
          | .error e => create_error_answer entity_name question e category
          | .ok items =>
            match s.classify_q items with
            | .error e => create_error_answer entity_name question e category
            | .ok best_item =>
              if best_item = "" then create_empty_answer entity_name question category
              else
                match s.filter_data processed best_item with
                | .error e => create_error_answer entity_name question e category
                | .ok (filtered, relevance_scores) =>
                  match s.to_models filtered relevance_scores with
                  | .error e => create_error_answer entity_name question e category
                  | .ok models =>
                    match s.gen_answer models
                        (generate_additional_context entity_name filtered best_item) with
                    | .error e => create_error_answer entity_name question e category
                    | .ok answer => answer

/-- `SmartFilteringSettings.strategy` (`app/config.py`): the per-dataset-kind
filter-strategy table. -/
def strategyTable (kind : String) : Option String :=
  if kind = "contractors" then some "none"
  else if kind = "risks" then some "keybert"
  else if kind = "errors" then some "none"
  else if kind = "processes" then some "none"
  else none

/-- `ToolExecutor._extract_keywords_with_keybert`
(`app/tools/tool_executor.py`): the KeyBERT call is external; its own
exceptions are caught and turned into `[]`. -/
def extract_keywords_with_keybert (keybert : Except String (List String)) : List String :=
  match keybert with
  | .ok kws => kws
  | .error _ => []

/-- The tool names registered in `ToolRegistry._register_tools`
(`app/tools/registry.py`): exactly the `KeywordSearchTool` of
`app/tools/keyword_search_tool.py`, under its schema name. -/
def registryToolNames : List String := ["search_by_keywords"]

/-- Keyword arguments passed by `ToolExecutor.select_and_execute` to
`tool_to_execute.execute(**arguments)`. -/
def executorCallKwargNames : List String := ["df", "keywords", "top_n"]

/-- Parameters of the registered tool's
`execute(self, df, keywords, column_to_search, top_n=3, **kwargs)`. -/
def registeredToolParamNames : List String := ["df", "keywords", "column_to_search", "top_n"]

/-- The registered tool's parameters that have no default value. -/
def registeredToolRequiredNames : List String := ["df", "keywords", "column_to_search"]

/-- CPython keyword binding succeeds iff every keyword argument names a
parameter and every defaultless parameter receives an argument. -/
def kwargsBindOk (params required kwargs : List String) : Bool :=
  kwargs.all (fun k => params.contains k) && required.all (fun k => kwargs.contains k)

/-- The call `tool_to_execute.execute(**arguments)` inside
`ToolExecutor.select_and_execute`: the argument dict `{df, keywords, top_n}`
omits the registered tool's required `column_to_search` parameter, so CPython
keyword binding raises `TypeError` before the tool body runs
(`kwargsBindOk registeredToolParamNames registeredToolRequiredNames
executorCallKwargNames = false`). -/
def call_registered_tool (_df : DF) (_keywords : List String) (_top_n : Nat) :
    Except String (DF × ScoreMap) :=
  .error "TypeError: execute() missing 1 required positional argument: column_to_search"

/-- `ToolExecutor.select_and_execute` (`app/tools/tool_executor.py`) as
composed at the composition root (default registry, shared KeyBERT service):
extract keywords (failures become `[]`), fall back to the unchanged dataset
when none are extracted or the tool is absent, and catch any exception of
the tool call, also falling back to the unchanged dataset. -/
def select_and_execute (keybert : Except String (List String)) (df : DF)
    (top_n : Nat) : DF × ScoreMap :=
  let keywords := extract_keywords_with_keybert keybert
  if keywords = [] then (df, [])
  else if "search_by_keywords" ∉ registryToolNames then (df, [])
  else
    match call_registered_tool df keywords top_n with
    | .ok r => r
    | .error _ => (df, [])

/-- Modelled from the spec: `apply_strategy(question, dataset, dataset_kind)`
resolves the strategy for the dataset kind from the per-dataset-kind
configuration table; `none`, unknown, and the unimplemented `llm`/`both`
strategies pass the dataset through unchanged; `keybert` extracts keywords
(none extracted passes through unchanged) and executes the
`search_by_keywords` tool on the designated text column. -/
def apply_strategy_spec (kind : String) (keybert : Except String (List String))
    (target_column : String) (df : DF) (top_n : Nat) : DF × ScoreMap :=
  match strategyTable kind with
  | some strat =>
    if strat = "keybert" then
      let keywords := extract_keywords_with_keybert keybert
      if keywords = [] then (df, [])
      else kst_execute df keywords target_column top_n
    else (df, [])
  | none => (df, [])

/-- The four supported button types (`BUTTON_TO_PIPELINE` in
`app/pipelines/__init__.py`). -/
def supportedButtonTypes : List String := ["contractors", "risks", "errors", "processes"]

/-- Constructor parameters of `ContractorsPipeline.__init__`
(`app/pipelines/contractors_pipeline.py`). -/
def contractorsPipelineParams : List String :=
  ["excel_loader", "normalization_service", "classifier_service", "answer_generator"]

/-- Constructor parameters of `RisksPipeline.__init__`
(`app/pipelines/risks_pipeline.py`). -/
def risksPipelineParams : List String :=
  ["excel_loader", "normalization_service", "classifier_service", "answer_generator"]

/-- Constructor parameters of `ErrorsPipeline.__init__`
(`app/pipelines/errors_pipeline.py`). -/
def errorsPipelineParams : List String :=
  ["excel_loader", "normalization_service", "classifier_service", "answer_generator"]

/-- Constructor parameters of `ProcessesPipeline.__init__`
(`app/pipelines/processes_pipeline.py`). -/
def processesPipelineParams : List String :=
  ["excel_loader", "normalization_service", "classifier_service", "answer_generator"]

/-- Keyword arguments passed by every factory in `get_pipeline`
(`app/pipelines/__init__.py`). -/
def factoryKwargNames : List String :=
  ["excel_loader", "normalization_service", "classifier_service",
   "answer_generator", "tool_executor"]

/-- Constructor parameter list per supported button type. -/
def pipelineParamsFor (button_type : String) : List String :=
  if button_type = "contractors" then contractorsPipelineParams
  else if button_type = "risks" then risksPipelineParams
  else if button_type = "errors" then errorsPipelineParams
  else processesPipelineParams

/-- Outcome of `get_pipeline`: a constructed pipeline, the `ValueError`
raised for an unsupported button type, or the `TypeError` raised by CPython
keyword binding when a factory calls a constructor. -/
inductive GetPipelineResult where
  | pipeline
  | valueError
  | typeError
deriving DecidableEq, Repr

/-- `get_pipeline` (`app/pipelines/__init__.py`): unsupported button types
raise `ValueError`; otherwise the matching factory calls the concrete
pipeline constructor with the factory's keyword arguments. -/
def get_pipeline (button_type : String) : GetPipelineResult :=
  if button_type ∉ supportedButtonTypes then .valueError
  else if kwargsBindOk (pipelineParamsFor button_type) (pipelineParamsFor button_type)
      factoryKwargNames then .pipeline
  else .typeError

example : get_pipeline "risks" = .typeError := by decide
example : get_pipeline "unknown" = .valueError := by decide
example : select_and_execute (Except.ok ["budget"]) ⟨["risk_text"], [⟨0, [("risk_text", "budget overrun")]⟩]⟩ 5 = (⟨["risk_text"], [⟨0, [("risk_text", "budget overrun")]⟩]⟩, []) := by decide
example :
    apply_strategy_spec "risks" (Except.ok ["budget"]) "risk_text"
      ⟨["risk_text"], [⟨0, [("risk_text", "delay")]⟩, ⟨1, [("risk_text", "budget overrun")]⟩]⟩ 5 =
    (⟨["risk_text"], [⟨1, [("risk_text", "budget overrun")]⟩]⟩, [(1, 1)]) := by decide

theorem pyMaxBy_le (f : MatchResult → ℚ) (a : MatchResult) (l : List MatchResult) :
    ∀ x ∈ a :: l, f x ≤ f (pyMaxBy f a l) := by
  induction l generalizing a with
  | nil =>
    intro x hx
    simp only [List.mem_singleton] at hx
    subst hx
    simp [pyMaxBy]
  | cons b t ih =>
    intro x hx
    simp only [pyMaxBy]
    simp only [List.mem_cons] at hx
    by_cases hab : f a < f b
    · rw [if_pos hab]
      rcases hx with rfl | rfl | hx
      · exact (le_of_lt hab).trans (ih b b (List.mem_cons_self b t))
      · exact ih x x (List.mem_cons_self x t)
      · exact ih b x (List.mem_cons_of_mem b hx)
    · rw [if_neg hab]
      push_neg at hab
      rcases hx with rfl | rfl | hx
      · exact ih x x (List.mem_cons_self x t)
      · exact hab.trans (ih a a (List.mem_cons_self a t))
      · exact ih a x (List.mem_cons_of_mem a hx)

theorem pyMaxBy_decomp (f : MatchResult → ℚ) (a : MatchResult) (l : List MatchResult) :
    ∃ p q, a :: l = p ++ pyMaxBy f a l :: q ∧ ∀ x ∈ p, f x < f (pyMaxBy f a l) := by
  induction l generalizing a with
  | nil => exact ⟨[], [], by simp [pyMaxBy], by simp⟩
  | cons b t ih =>
    by_cases hab : f a < f b
    · obtain ⟨p, q, hpq, hstrict⟩ := ih b
      refine ⟨a :: p, q, ?_, ?_⟩
      · simp only [pyMaxBy, if_pos hab]
        rw [List.cons_append, ← hpq]
      · intro x hx
        simp only [pyMaxBy, if_pos hab]
        rcases List.mem_cons.mp hx with rfl | hxp
        · exact hab.trans_le (pyMaxBy_le f b t b (List.mem_cons_self b t))
        · exact hstrict x hxp
    · obtain ⟨p, q, hpq, hstrict⟩ := ih a
      cases p with
      | nil =>
        have ha : pyMaxBy f a t = a := by
          simp only [List.nil_append] at hpq
          exact (List.cons.injEq _ _ _ _ ▸ hpq).1.symm
        refine ⟨[], b :: t, ?_, by simp⟩
        simp only [pyMaxBy, if_neg hab, ha, List.nil_append]
      | cons a0 p' =>
        simp only [List.cons_append] at hpq
        have ha0 : a = a0 := (List.cons.injEq _ _ _ _ ▸ hpq).1
        have ht : t = p' ++ pyMaxBy f a t :: q := (List.cons.injEq _ _ _ _ ▸ hpq).2
        have hma : f a < f (pyMaxBy f a t) := by
          apply hstrict
          rw [← ha0]
          exact List.mem_cons_self a p'
        refine ⟨a :: b :: p', q, ?_, ?_⟩
        · simp only [pyMaxBy, if_neg hab, List.cons_append]
          rw [← ht]
        · intro x hx
          simp only [pyMaxBy, if_neg hab]
          push_neg at hab
          rcases List.mem_cons.mp hx with rfl | hx2
          · exact hma
          · rcases List.mem_cons.mp hx2 with rfl | hx3
            · exact lt_of_le_of_lt hab hma
            · exact hstrict x (List.mem_cons_of_mem _ hx3)

/-- C8: when the backend returns a non-empty candidate list, `classify`
returns the delimiter-stripped item of the candidate attaining the maximum
score, and that candidate is the *first* such in the backend's returned
list: every candidate scores at most its score, and every candidate listed
before it scores strictly less. -/
theorem c8_classify_first_max (items_list : List String)
    (backend : Except String (Option ClassificationResult))
    (res : ClassificationResult) (m : MatchResult) (ms : List MatchResult)
    (hitems : items_list ≠ [])
    (hb : backend = Except.ok (some res))
    (htm : res.top_matches = m :: ms) :
    ∃ p q best, res.top_matches = p ++ best :: q ∧
      (∀ x ∈ res.top_matches, x.score ≤ best.score) ∧
      (∀ x ∈ p, x.score < best.score) ∧
      classify items_list backend = remove_hashtag_separators best.item := by
  obtain ⟨p, q, hdec, hstrict⟩ := pyMaxBy_decomp MatchResult.score m ms
  refine ⟨p, q, pyMaxBy MatchResult.score m ms, by rw [htm]; exact hdec, ?_, hstrict, ?_⟩
  · intro x hx
    rw [htm] at hx
    exact pyMaxBy_le MatchResult.score m ms x hx
  · rw [hb]
    simp only [classify, if_neg hitems, htm]

/-- C8 witness (spec scenario D): two candidates tie at score `0.8`; the one
listed first by the backend wins, not the alphabetically or positionally
first vocabulary entry. -/
theorem c8_classify_first_max_witness :
    (∃ p q best,
      (ClassificationResult.mk "r"
          [⟨"#Beta#", Rat.divInt 4 5⟩, ⟨"#Alpha#", Rat.divInt 4 5⟩]).top_matches
        = p ++ best :: q ∧
      (∀ x ∈ (ClassificationResult.mk "r"
          [⟨"#Beta#", Rat.divInt 4 5⟩, ⟨"#Alpha#", Rat.divInt 4 5⟩]).top_matches,
        x.score ≤ best.score) ∧
      (∀ x ∈ p, x.score < best.score) ∧
      classify ["Alpha", "Beta"]
          (Except.ok (some (ClassificationResult.mk "r"
            [⟨"#Beta#", Rat.divInt 4 5⟩, ⟨"#Alpha#", Rat.divInt 4 5⟩])))
        = remove_hashtag_separators best.item) ∧
    classify ["Alpha", "Beta"]
        (Except.ok (some (ClassificationResult.mk "r"
          [⟨"#Beta#", Rat.divInt 4 5⟩, ⟨"#Alpha#", Rat.divInt 4 5⟩])))
      = "Beta" := by
  constructor
  · exact c8_classify_first_max ["Alpha", "Beta"] _ _ _ _ (by decide) rfl rfl
  · decide

/-- C1: the delimiter stripping is not inverse to the delimiter wrapping.
With vocabulary `["#a"]` the only schema-legal candidate is `"##a#"`
(the wrapping of `"#a"`), yet `classify` returns `"a"`, which is neither
the empty string nor a member of the vocabulary: `strip('#')` removes
*all* leading and trailing `#`, contradicting the docstring of
`_remove_hashtag_separators` (which promises the original value back) and
the spec's invariant that the returned entity is a vocabulary member. -/
theorem c1_hash_vocabulary_escape :
    classify ["#a"] (Except.ok (some ⟨"r", [⟨"##a#", 1⟩]⟩)) = "a" ∧
    "##a#" ∈ preprocess_items_with_hashtags ["#a"] ∧
    "a" ∉ ["#a"] ∧ ("a" : String) ≠ "" := by decide

/-- C3 counterexample: the `_shared` lemmatizing variant of the
keyword-overlap tool violates the claimed fallback when the target column
is absent.  On a one-row dataset without a `risk_text` column it returns an
explicitly empty dataset, whereas the claim requires the first `top_n` rows
of the original dataset (here one row). -/
theorem c3_shared_missing_column_counterexample :
    (kst_shared_execute id ⟨["other"], [⟨0, [("other", "x")]⟩]⟩ ["a"] 3)
      = (DF.emptyDF, []) ∧
    ((⟨["other"], [⟨0, [("other", "x")]⟩]⟩ : DF).head 3).rows ≠ [] ∧
    (kst_shared_execute id ⟨["other"], [⟨0, [("other", "x")]⟩]⟩ ["a"] 3)
      ≠ ((⟨["other"], [⟨0, [("other", "x")]⟩]⟩ : DF).head 3, []) := by decide

/-- C3 (amended): the registered keyword-overlap tool
(`app/tools/keyword_search_tool.py`) returns the first `top_n` rows of the
original dataset with an empty score map in all three fallback cases
(empty input or keyword list, absent target column, zero positive scores).
The `_shared` lemmatizing variant does so for the empty-input case and,
whenever its `risk_text` column is present, for the zero-score case, but
returns the explicitly empty dataset `pd.DataFrame()` when the `risk_text`
column is absent. -/
theorem c3_fallback_policy :
    (∀ df keywords column_to_search top_n, df.rows = [] ∨ keywords = [] →
      kst_execute df keywords column_to_search top_n = (df.head top_n, [])) ∧
    (∀ df keywords column_to_search top_n, column_to_search ∉ df.cols →
      kst_execute df keywords column_to_search top_n = (df.head top_n, [])) ∧
    (∀ df keywords column_to_search top_n,
      positiveRows (scoredRows df column_to_search keywords) = [] →
      kst_execute df keywords column_to_search top_n = (df.head top_n, [])) ∧
    (∀ morphNorm df keywords top_n, df.rows = [] ∨ keywords = [] →
      kst_shared_execute morphNorm df keywords top_n = (df.head top_n, [])) ∧
    (∀ morphNorm df keywords top_n, "risk_text" ∈ df.cols →
      positiveRows (sharedScoredRows morphNorm df keywords) = [] →
      kst_shared_execute morphNorm df keywords top_n = (df.head top_n, [])) ∧
    (∀ morphNorm df keywords top_n, df.rows ≠ [] → keywords ≠ [] →
      "risk_text" ∉ df.cols →
      kst_shared_execute morphNorm df keywords top_n = (DF.emptyDF, [])) := by
  refine ⟨?_, ?_, ?_, ?_, ?_, ?_⟩
  · intro df kw c n h
    simp only [kst_execute, if_pos h]
  · intro df kw c n h
    by_cases hg : df.rows = [] ∨ kw = []
    · simp only [kst_execute, if_pos hg]
    · simp only [kst_execute, if_neg hg, if_pos h]
  · intro df kw c n h
    by_cases hg : df.rows = [] ∨ kw = []
    · simp only [kst_execute, if_pos hg]
    · by_cases hc : c ∉ df.cols
      · simp only [kst_execute, if_neg hg, if_pos hc]
      · simp only [kst_execute, if_neg hg, if_neg hc, if_pos h]
  · intro m df kw n h
    simp only [kst_shared_execute, if_pos h]
  · intro m df kw n hc h
    by_cases hg : df.rows = [] ∨ kw = []
    · simp only [kst_shared_execute, if_pos hg]
    · simp only [kst_shared_execute, if_neg hg, if_neg (not_not_intro hc), if_pos h]
  · intro m df kw n h1 h2 h3
    have hg : ¬ (df.rows = [] ∨ kw = []) := by
      rintro (h | h)
      · exact h1 h
      · exact h2 h
    simp only [kst_shared_execute, if_neg hg, if_pos h3]

/-- C3 witness: each fallback case exercised on concrete inputs. -/
theorem c3_fallback_policy_witness :
    kst_execute ⟨["t"], [⟨0, [("t", "abc")]⟩]⟩ [] "t" 2
      = ((⟨["t"], [⟨0, [("t", "abc")]⟩]⟩ : DF).head 2, []) ∧
    kst_execute ⟨["t"], [⟨0, [("t", "abc")]⟩]⟩ ["zz"] "missing" 2
      = ((⟨["t"], [⟨0, [("t", "abc")]⟩]⟩ : DF).head 2, []) ∧
    kst_execute ⟨["t"], [⟨0, [("t", "abc")]⟩]⟩ ["zz"] "t" 2
      = ((⟨["t"], [⟨0, [("t", "abc")]⟩]⟩ : DF).head 2, []) ∧
    kst_shared_execute id ⟨["risk_text"], [⟨0, [("risk_text", "abc")]⟩]⟩ ["zz"] 2
      = ((⟨["risk_text"], [⟨0, [("risk_text", "abc")]⟩]⟩ : DF).head 2, []) ∧
    kst_shared_execute id ⟨["other"], [⟨0, [("other", "x")]⟩]⟩ ["zz"] 2
      = (DF.emptyDF, []) := by
  refine ⟨?_, ?_, ?_, ?_, ?_⟩
  · exact c3_fallback_policy.1 _ [] "t" 2 (Or.inr rfl)
  · exact c3_fallback_policy.2.1 _ ["zz"] "missing" 2 (by decide)
  · exact c3_fallback_policy.2.2.1 _ ["zz"] "t" 2 (by decide)
  · exact c3_fallback_policy.2.2.2.2.1 id
      ⟨["risk_text"], [⟨0, [("risk_text", "abc")]⟩]⟩ ["zz"] 2 (by decide) (by decide)
  · exact c3_fallback_policy.2.2.2.2.2 id _ ["zz"] 2 (by decide) (by decide) (by decide)

/-- C6 counterexample: on a dataset that lacks the designated column no
row matches, yet `filter_items` returns the original dataset unchanged
(here one row) instead of the explicitly empty dataset the claim
requires for the no-match case. -/
theorem c6_missing_column_counterexample :
    (∀ r ∈ (⟨["a"], [⟨0, [("a", "v")]⟩]⟩ : DF).rows,
      rowMatches "work_types" "x" r = false) ∧
    filter_items "work_types" ⟨["a"], [⟨0, [("a", "v")]⟩]⟩ "x"
      = (⟨["a"], [⟨0, [("a", "v")]⟩]⟩, []) ∧
    (filter_items "work_types" ⟨["a"], [⟨0, [("a", "v")]⟩]⟩ "x").1.rows ≠ [] := by decide

/-- C6 (amended): `filter_items` performs a case-insensitive exact match on
the designated column.  An empty entity value returns the original dataset
unchanged with an empty score map, and so does an absent designated column;
when the column is present, no matching row yields the explicitly empty
dataset with an empty map, and otherwise exactly the matching rows are
returned, each assigned score `1.0`. -/
theorem c6_filter_by_entity (column_name : String) (df : DF) (item_value : String) :
    (item_value = "" → filter_items column_name df item_value = (df, [])) ∧
    (column_name ∉ df.cols → filter_items column_name df item_value = (df, [])) ∧
    (item_value ≠ "" → column_name ∈ df.cols →
      df.rows.filter (rowMatches column_name item_value) = [] →
      filter_items column_name df item_value = (DF.emptyDF, [])) ∧
    (item_value ≠ "" → column_name ∈ df.cols →
      df.rows.filter (rowMatches column_name item_value) ≠ [] →
      filter_items column_name df item_value
        = (⟨df.cols, df.rows.filter (rowMatches column_name item_value)⟩,
           (df.rows.filter (rowMatches column_name item_value)).map
             (fun r => (r.idx, 1)))) := by
  refine ⟨?_, ?_, ?_, ?_⟩
  · intro h
    simp only [filter_items, if_pos h]
  · intro h
    by_cases hv : item_value = ""
    · simp only [filter_items, if_pos hv]
    · simp only [filter_items, if_neg hv, if_pos h]
  · intro hv hc h
    simp only [filter_items, if_neg hv, if_neg (not_not_intro hc), if_pos h]
  · intro hv hc h
    simp only [filter_items, if_neg hv, if_neg (not_not_intro hc), if_neg h]

/-- C6 witness: all four branches exercised on concrete inputs, including
the case-insensitive match (`"alpha"` matches `"Alpha"`, scored `1.0`). -/
theorem c6_filter_by_entity_witness :
    filter_items "project_name" ⟨["project_name"], [⟨0, [("project_name", "Alpha")]⟩]⟩ ""
      = (⟨["project_name"], [⟨0, [("project_name", "Alpha")]⟩]⟩, []) ∧
    filter_items "work_types" ⟨["a"], [⟨0, [("a", "v")]⟩]⟩ "x"
      = (⟨["a"], [⟨0, [("a", "v")]⟩]⟩, []) ∧
    filter_items "project_name" ⟨["project_name"], [⟨0, [("project_name", "Alpha")]⟩]⟩ "Gamma"
      = (DF.emptyDF, []) ∧
    filter_items "project_name" ⟨["project_name"], [⟨0, [("project_name", "Alpha")]⟩,
        ⟨1, [("project_name", "Beta")]⟩]⟩ "alpha"
      = (⟨["project_name"], [⟨0, [("project_name", "Alpha")]⟩]⟩, [(0, 1)]) := by
  refine ⟨?_, ?_, ?_, ?_⟩
  · exact (c6_filter_by_entity "project_name" _ "").1 rfl
  · exact (c6_filter_by_entity "work_types" _ "x").2.1 (by decide)
  · exact (c6_filter_by_entity "project_name" _ "Gamma").2.2.1 (by decide) (by decide) (by decide)
  · have h := (c6_filter_by_entity "project_name"
      ⟨["project_name"], [⟨0, [("project_name", "Alpha")]⟩, ⟨1, [("project_name", "Beta")]⟩]⟩
      "alpha").2.2.2 (by decide) (by decide) (by decide)
    rw [h]
    decide

/-- C9: `filter_items` is idempotent for a non-empty entity value: filtering
the already-filtered dataset by the same entity returns the same rows. -/
theorem c9_filter_items_idempotent (column_name : String) (df : DF) (item_value : String)
    (h : item_value ≠ "") :
    (filter_items column_name (filter_items column_name df item_value).1 item_value).1.rows
      = (filter_items column_name df item_value).1.rows := by
  by_cases hc : column_name ∈ df.cols
  · by_cases hm : df.rows.filter (rowMatches column_name item_value) = []
    · have h1 := (c6_filter_by_entity column_name df item_value).2.2.1 h hc hm
      rw [h1]
      simp only [filter_items, if_neg h, DF.emptyDF]
      norm_num
    · have h1 := (c6_filter_by_entity column_name df item_value).2.2.2 h hc hm
      rw [h1]
      have hall : ∀ r ∈ df.rows.filter (rowMatches column_name item_value),
          rowMatches column_name item_value r = true :=
        fun r hr => List.of_mem_filter hr
      have hself : (df.rows.filter (rowMatches column_name item_value)).filter
          (rowMatches column_name item_value)
          = df.rows.filter (rowMatches column_name item_value) :=
        List.filter_eq_self.mpr hall
      simp only [filter_items, if_neg h, if_neg (not_not_intro hc), hself, if_neg hm]
  · have h1 := (c6_filter_by_entity column_name df item_value).2.1 hc
    rw [h1]
    simp only [filter_items, if_neg h, if_pos hc]

/-- C9 witness: filtering the filtered single-entity dataset again returns
the same rows. -/
theorem c9_filter_items_idempotent_witness :
    (filter_items "project_name"
        (filter_items "project_name"
          ⟨["project_name"], [⟨0, [("project_name", "Alpha")]⟩,
            ⟨1, [("project_name", "Beta")]⟩]⟩ "Alpha").1 "Alpha").1.rows
      = (filter_items "project_name"
          ⟨["project_name"], [⟨0, [("project_name", "Alpha")]⟩,
            ⟨1, [("project_name", "Beta")]⟩]⟩ "Alpha").1.rows :=
  c9_filter_items_idempotent "project_name" _ "Alpha" (by decide)

/-- C4: `process` never propagates a stage exception.  Whichever of the
eight stages raises first (with every earlier stage succeeding and no
earlier short-circuit), the remaining stages are skipped and the result is
`_create_error_answer`: an answer carrying the original question, a
human-readable message naming the failure, `total_found = 0` and no items.
(`process` is a total function, so no exception ever reaches the caller.) -/
theorem c4_process_error_answers (entity_name question : String)
    (category : Option String) (s : Stages) :
    (∀ e, s.load = .error e →
      process entity_name question category s
        = create_error_answer entity_name question e category) ∧
    (∀ df e, s.load = .ok df → s.clean_df df = .error e →
      process entity_name question category s
        = create_error_answer entity_name question e category) ∧
    (∀ df c e, s.load = .ok df → s.clean_df df = .ok c → s.pre_process c = .error e →
      process entity_name question category s
        = create_error_answer entity_name question e category) ∧
    (∀ df c p e, s.load = .ok df → s.clean_df df = .ok c → s.pre_process c = .ok p →
      p.rows ≠ [] → s.load_items p = .error e →
      process entity_name question category s
        = create_error_answer entity_name question e category) ∧
    (∀ df c p items e, s.load = .ok df → s.clean_df df = .ok c → s.pre_process c = .ok p →
      p.rows ≠ [] → s.load_items p = .ok items → s.classify_q items = .error e →
      process entity_name question category s
        = create_error_answer entity_name question e category) ∧
    (∀ df c p items best e, s.load = .ok df → s.clean_df df = .ok c →
      s.pre_process c = .ok p → p.rows ≠ [] → s.load_items p = .ok items →
      s.classify_q items = .ok best → best ≠ "" → s.filter_data p best = .error e →
      process entity_name question category s
        = create_error_answer entity_name question e category) ∧
    (∀ df c p items best fd sc e, s.load = .ok df → s.clean_df df = .ok c →
      s.pre_process c = .ok p → p.rows ≠ [] → s.load_items p = .ok items →
      s.classify_q items = .ok best → best ≠ "" → s.filter_data p best = .ok (fd, sc) →
      s.to_models fd sc = .error e →
      process entity_name question category s
        = create_error_answer entity_name question e category) ∧
    (∀ df c p items best fd sc models e, s.load = .ok df → s.clean_df df = .ok c →
      s.pre_process c = .ok p → p.rows ≠ [] → s.load_items p = .ok items →
      s.classify_q items = .ok best → best ≠ "" → s.filter_data p best = .ok (fd, sc) →
      s.to_models fd sc = .ok models →
      s.gen_answer models (generate_additional_context entity_name fd best) = .error e →
      process entity_name question category s
        = create_error_answer entity_name question e category) ∧
    (∀ e, (create_error_answer entity_name question e category).query = question ∧
      (create_error_answer entity_name question e category).total_found = 0 ∧
      (create_error_answer entity_name question e category).items = [] ∧
      (create_error_answer entity_name question e category).text
        = "К сожалению, произошла ошибка при обработке вашего запроса о "
            ++ entity_name ++ ": " ++ e) := by
  refine ⟨?_, ?_, ?_, ?_, ?_, ?_, ?_, ?_, ?_⟩
  · intro e h1
    simp only [process, h1]
  · intro df e h1 h2
    simp only [process, h1, h2]
  · intro df c e h1 h2 h3
    simp only [process, h1, h2, h3]
  · intro df c p e h1 h2 h3 h4 h5
    simp only [process, h1, h2, h3, h5, List.length_eq_zero, if_neg h4]
  · intro df c p items e h1 h2 h3 h4 h5 h6
    simp only [process, h1, h2, h3, h5, h6, List.length_eq_zero, if_neg h4]
  · intro df c p items best e h1 h2 h3 h4 h5 h6 h7 h8
    simp only [process, h1, h2, h3, h5, h6, h8, List.length_eq_zero, if_neg h4, if_neg h7]
  · intro df c p items best fd sc e h1 h2 h3 h4 h5 h6 h7 h8 h9
    simp only [process, h1, h2, h3, h5, h6, h8, h9, List.length_eq_zero,
      if_neg h4, if_neg h7]
  · intro df c p items best fd sc models e h1 h2 h3 h4 h5 h6 h7 h8 h9 h10
    simp only [process, h1, h2, h3, h5, h6, h8, h9, h10, List.length_eq_zero,
      if_neg h4, if_neg h7]
  · intro e
    exact ⟨rfl, rfl, rfl, rfl⟩

/-- C4 witness: a failing load stage and a failing answer-generation stage,
each turned into the error answer. -/
theorem c4_process_error_answers_witness :
    process "риска" "q" none
        ⟨.error "file missing", fun d => .ok d, fun d => .ok d, fun _ => .ok [],
         fun _ => .ok "x", fun d _ => .ok (d, []), fun _ _ => .ok [],
         fun _ _ => .ok (create_empty_answer "риска" "q" none)⟩
      = create_error_answer "риска" "q" "file missing" none ∧
    process "риска" "q" none
        ⟨.ok ⟨["a"], [⟨0, [("a", "v")]⟩]⟩, fun d => .ok d, fun d => .ok d,
         fun _ => .ok ["v"], fun _ => .ok "v", fun d _ => .ok (d, []),
         fun _ _ => .ok [], fun _ _ => .error "llm down"⟩
      = create_error_answer "риска" "q" "llm down" none := by
  constructor
  · exact (c4_process_error_answers "риска" "q" none _).1 "file missing" rfl
  · exact (c4_process_error_answers "риска" "q" none _).2.2.2.2.2.2.2.1
      ⟨["a"], [⟨0, [("a", "v")]⟩]⟩ ⟨["a"], [⟨0, [("a", "v")]⟩]⟩
      ⟨["a"], [⟨0, [("a", "v")]⟩]⟩ ["v"] "v" ⟨["a"], [⟨0, [("a", "v")]⟩]⟩ [] []
      "llm down" rfl rfl rfl (by decide) rfl rfl (by decide) rfl rfl rfl

/-- C5: the two early exits of `process` are success paths.  (a) When the
pre-filter yields zero rows, the empty answer is returned for *every*
vocabulary loader and classifier (so classification is never consulted);
(b) when classification succeeds with the empty string, the empty answer is
returned; moreover the real `classify` returns `""` on an empty vocabulary,
and the empty answer carries the original question, non-empty explanatory
text, zero results and no items. -/
theorem c5_process_early_exits (entity_name question : String)
    (category : Option String) (s : Stages) :
    (∀ df c p, s.load = .ok df → s.clean_df df = .ok c → s.pre_process c = .ok p →
      p.rows = [] →
      process entity_name question category s
        = create_empty_answer entity_name question category) ∧
    (∀ df c p items, s.load = .ok df → s.clean_df df = .ok c → s.pre_process c = .ok p →
      p.rows ≠ [] → s.load_items p = .ok items → s.classify_q items = .ok "" →
      process entity_name question category s
        = create_empty_answer entity_name question category) ∧
    (∀ backend, classify [] backend = "") ∧
    ((create_empty_answer entity_name question category).query = question ∧
      (create_empty_answer entity_name question category).total_found = 0 ∧
      (create_empty_answer entity_name question category).items = [] ∧
      (create_empty_answer entity_name question category).text ≠ "") := by
  refine ⟨?_, ?_, ?_, ⟨rfl, rfl, rfl, ?_⟩⟩
  · intro df c p h1 h2 h3 h4
    simp only [process, h1, h2, h3, List.length_eq_zero, if_pos h4]
  · intro df c p items h1 h2 h3 h4 h5 h6
    simp only [process, h1, h2, h3, h5, h6, List.length_eq_zero, if_neg h4, if_true]
  · intro backend
    simp [classify]
  · intro hcontra
    have hd : ("По вашему запросу не найдено " ++ entity_name ++ ".").data
        = ("По вашему запросу не найдено ".data ++ entity_name.data) ++ ['.'] := by
      rw [String.data_append, String.data_append]
    have h2 : (("По вашему запросу не найдено ".data ++ entity_name.data) ++ ['.'])
        = [] := by
      rw [← hd]
      rw [show ("По вашему запросу не найдено " ++ entity_name ++ "." : String)
        = (create_empty_answer entity_name question category).text from rfl, hcontra]
    simp at h2

/-- C5 witness: an empty pre-filter result and an empty classification
result each yield the empty answer on concrete pipelines. -/
theorem c5_process_early_exits_witness :
    process "риска" "q" none
        ⟨.ok ⟨["a"], [⟨0, [("a", "v")]⟩]⟩, fun d => .ok d, fun _ => .ok DF.emptyDF,
         fun _ => .ok ["v"], fun _ => .ok "v", fun d _ => .ok (d, []),
         fun _ _ => .ok [], fun _ _ => .ok (create_empty_answer "риска" "q" none)⟩
      = create_empty_answer "риска" "q" none ∧
    process "риска" "q" none
        ⟨.ok ⟨["a"], [⟨0, [("a", "v")]⟩]⟩, fun d => .ok d, fun d => .ok d,
         fun _ => .ok [], fun _ => .ok "", fun d _ => .ok (d, []),
         fun _ _ => .ok [], fun _ _ => .ok (create_empty_answer "риска" "q" none)⟩
      = create_empty_answer "риска" "q" none := by
  constructor
  · exact (c5_process_early_exits "риска" "q" none _).1
      ⟨["a"], [⟨0, [("a", "v")]⟩]⟩ ⟨["a"], [⟨0, [("a", "v")]⟩]⟩ DF.emptyDF
      rfl rfl rfl rfl
  · exact (c5_process_early_exits "риска" "q" none _).2.1
      ⟨["a"], [⟨0, [("a", "v")]⟩]⟩ ⟨["a"], [⟨0, [("a", "v")]⟩]⟩
      ⟨["a"], [⟨0, [("a", "v")]⟩]⟩ [] rfl rfl rfl (by decide) rfl rfl

/-- C2 counterexample: the dispatcher does not resolve the strategy from the
configuration table.  For dataset kind `"risks"` the table prescribes the
`keybert` strategy, whose table-resolving reading (`apply_strategy_spec`,
modelled from the spec) filters the dataset by the extracted keywords — yet
`select_and_execute` (which takes no dataset kind at all) returns a
different result on the same inputs. -/
theorem c2_strategy_table_not_consulted :
    strategyTable "risks" = some "keybert" ∧
    apply_strategy_spec "risks" (Except.ok ["budget"]) "risk_text"
        ⟨["risk_text"], [⟨0, [("risk_text", "delay")]⟩,
          ⟨1, [("risk_text", "budget overrun")]⟩]⟩ 5
      ≠ select_and_execute (Except.ok ["budget"])
          ⟨["risk_text"], [⟨0, [("risk_text", "delay")]⟩,
            ⟨1, [("risk_text", "budget overrun")]⟩]⟩ 5 := by decide

/-- C2 (amended): `select_and_execute` ignores the per-dataset-kind strategy
table (it takes no dataset kind, and nothing reads
`SmartFilteringSettings.strategy`).  It unconditionally attempts the
keybert flow, and because its argument dict omits the registered tool's
required `column_to_search` parameter the tool call always raises and is
caught, so for every question, dataset and extraction outcome it returns
the input dataset unchanged with an empty score map — in particular for
kinds whose configured strategy is `none` or unknown — and never raises. -/
theorem c2_executor_always_passthrough :
    (∀ keybert df top_n, select_and_execute keybert df top_n = (df, [])) ∧
    kwargsBindOk registeredToolParamNames registeredToolRequiredNames
      executorCallKwargNames = false ∧
    strategyTable "contractors" = some "none" ∧ strategyTable "tasks" = none := by
  refine ⟨?_, by decide, by decide, by decide⟩
  intro kb df n
  by_cases h : extract_keywords_with_keybert kb = []
  · simp only [select_and_execute, if_pos h]
  · simp only [select_and_execute, if_neg h, call_registered_tool]
    simp [registryToolNames]

/-- C10: for every supported button type, `get_pipeline` raises `TypeError`
instead of returning a pipeline: each factory passes a `tool_executor`
keyword argument that none of the four pipeline constructors accepts. -/
theorem c10_get_pipeline_type_error :
    get_pipeline "contractors" = GetPipelineResult.typeError ∧
    get_pipeline "risks" = GetPipelineResult.typeError ∧
    get_pipeline "errors" = GetPipelineResult.typeError ∧
    get_pipeline "processes" = GetPipelineResult.typeError ∧
    supportedButtonTypes = ["contractors", "risks", "errors", "processes"] ∧
    get_pipeline "unknown" = GetPipelineResult.valueError := by decide
